import Mathlib

/-!
Verification of the crawl engine of the Indeed job scraper
(`src/indeed_scraper.js`, `src/indeed_scraper_api.js`).

The JavaScript source is shallowly embedded: pure functions become Lean
functions over explicit page/card/pool models; JS strings are Lean
`String`s, JS exceptions are `Except`, nullable values are `Option`,
and the bounded polling loop is written with explicit fuel equal to the
source's round ceiling.  Definitions keep the source's names.
-/

namespace IndeedScraper

/-! ## JavaScript string primitives

`jsToLower`, `jsTrim`, `strContains` model `String.prototype.toLowerCase`,
`trim` and `includes`.  They are written over the character list so that
concrete instances reduce in the kernel. -/

/-- JS `s.toLowerCase()`. -/
def jsToLower (s : String) : String := ⟨s.data.map Char.toLower⟩

/-- JS `s.trim()`: strip leading and trailing whitespace. -/
def jsTrim (s : String) : String :=
  ⟨((s.data.dropWhile Char.isWhitespace).reverse.dropWhile Char.isWhitespace).reverse⟩

/-- Does `hay` contain `needle` as a contiguous run? (char-list worker). -/
def charsContain (needle : List Char) : List Char → Bool
  | [] => needle.isEmpty
  | c :: rest => needle.isPrefixOf (c :: rest) || charsContain needle rest

/-- JS `hay.includes(needle)`. -/
def strContains (hay needle : String) : Bool := charsContain needle.data hay.data

/-! ## Task generation (`createIndeedSearchTasks`, indeed_scraper.js:96-129) -/

/-- One search task, as pushed at indeed_scraper.js:118-124. -/
structure SearchTask where
  jobType : String
  location : String
  salaryMin : Nat
  pageNumber : Nat
  isFirstPage : Bool
deriving DecidableEq

/-- The object literal pushed into `tasks` at indeed_scraper.js:118-124:
`isFirstPage` is computed as `page === 0`. -/
def mkSearchTask (jobType location : String) (salaryMin : Nat) (page : Nat) : SearchTask :=
  { jobType := jobType, location := location, salaryMin := salaryMin,
    pageNumber := page, isFirstPage := page == 0 }

/-- Embeds `createIndeedSearchTasks` (indeed_scraper.js:96-129): `forEach` over the
job types, inner `for` loop over page indices `0 .. maxPages-1`, pushing one
task per (type, page) pair.  The `forEach`/`push` accumulation is a left fold
appending each type's block of tasks. -/
def createIndeedSearchTasks (jobTypes : List String) (location : String)
    (salaryMin : Nat) (maxPages : Nat) : List SearchTask :=
  jobTypes.foldl
    (fun tasks jobType =>
      tasks ++ (List.range maxPages).map (fun page => mkSearchTask jobType location salaryMin page))
    []

lemma foldl_append_eq_flatMap (blk : String → List SearchTask) :
    ∀ (ts : List String) (acc : List SearchTask),
      ts.foldl (fun tasks t => tasks ++ blk t) acc = acc ++ ts.flatMap blk
  | [], acc => by simp
  | t :: ts, acc => by
      rw [List.foldl_cons, foldl_append_eq_flatMap blk ts, List.flatMap_cons,
        List.append_assoc]

lemma createIndeedSearchTasks_eq_flatMap (jobTypes : List String) (location : String)
    (salaryMin : Nat) (maxPages : Nat) :
    createIndeedSearchTasks jobTypes location salaryMin maxPages
      = jobTypes.flatMap
          (fun t => (List.range maxPages).map (fun page => mkSearchTask t location salaryMin page)) := by
  rw [createIndeedSearchTasks, foldl_append_eq_flatMap, List.nil_append]

lemma flatMap_blocks_getElem (loc : String) (sal n : Nat) :
    ∀ (ts : List String) (i p : Nat), i < ts.length → p < n →
      (ts.flatMap (fun t => (List.range n).map (fun page => mkSearchTask t loc sal page)))[i * n + p]?
        = ts[i]?.map (fun t => mkSearchTask t loc sal p)
  | [], i, p, hi, _ => by simp at hi
  | t :: ts, 0, p, hi, hp => by
      rw [List.flatMap_cons, List.getElem?_append]
      have hlen : ((List.range n).map (fun page => mkSearchTask t loc sal page)).length = n := by
        simp
      rw [if_pos (by simpa [hlen] using hp)]
      rw [List.getElem?_map, List.getElem?_range (by simpa using hp)]
      simp
  | t :: ts, i + 1, p, hi, hp => by
      rw [List.flatMap_cons, List.getElem?_append_right]
      · have hlen : ((List.range n).map (fun page => mkSearchTask t loc sal page)).length = n := by
          simp
        have harith : (i + 1) * n + p - n = i * n + p := by
          rw [Nat.succ_mul]; omega
        rw [hlen, harith, flatMap_blocks_getElem loc sal n ts i p (by simpa using hi) hp]
        simp
      · simp [Nat.succ_mul]; omega

/-- C6. `createIndeedSearchTasks` returns exactly
`jobTypes.length * maxPages` tasks, in term-major page-minor order (the task
at flat index `i * maxPages + p` is built from the `i`-th search term and page
index `p`, for every `i < jobTypes.length` and `p < maxPages`), and every
generated task has `isFirstPage` true iff its `pageNumber` is `0`. -/
theorem createIndeedSearchTasks_spec (jobTypes : List String) (location : String)
    (salaryMin : Nat) (maxPages : Nat) :
    (createIndeedSearchTasks jobTypes location salaryMin maxPages).length
        = jobTypes.length * maxPages
  ∧ (∀ (i p : Nat), i < jobTypes.length → p < maxPages →
      (createIndeedSearchTasks jobTypes location salaryMin maxPages)[i * maxPages + p]?
        = jobTypes[i]?.map (fun t => mkSearchTask t location salaryMin p))
  ∧ (∀ t ∈ createIndeedSearchTasks jobTypes location salaryMin maxPages,
      t.isFirstPage = true ↔ t.pageNumber = 0) := by
  rw [createIndeedSearchTasks_eq_flatMap]
  refine ⟨?_, ?_, ?_⟩
  · rw [List.length_flatMap]
    have : (List.map
        (List.length ∘ fun t => (List.range maxPages).map (fun page => mkSearchTask t location salaryMin page))
        jobTypes) = List.replicate jobTypes.length maxPages := by
      rw [← List.map_const']
      exact List.map_congr_left (fun t _ => by simp)
    rw [this, List.sum_replicate, smul_eq_mul]
  · exact fun i p hi hp => flatMap_blocks_getElem location salaryMin maxPages jobTypes i p hi hp
  · intro t ht
    rw [List.mem_flatMap] at ht
    obtain ⟨ty, _, ht⟩ := ht
    rw [List.mem_map] at ht
    obtain ⟨page, _, rfl⟩ := ht
    simp [mkSearchTask]

/-- Witness for C6 at a concrete input: two search terms, two pages each;
the task at flat index `1 * 2 + 1` is term "hotel chef", page 1. -/
theorem createIndeedSearchTasks_spec_witness :
    (createIndeedSearchTasks ["restaurant manager", "hotel chef"] "United States" 55000 2).length = 2 * 2
  ∧ (createIndeedSearchTasks ["restaurant manager", "hotel chef"] "United States" 55000 2)[1 * 2 + 1]?
      = some (mkSearchTask "hotel chef" "United States" 55000 1) :=
  ⟨(createIndeedSearchTasks_spec ["restaurant manager", "hotel chef"] "United States" 55000 2).1,
   by
    have h := (createIndeedSearchTasks_spec ["restaurant manager", "hotel chef"] "United States"
      55000 2).2.1 1 1 (by decide) (by decide)
    simpa using h⟩

/-! ## Cloudflare challenge resolver
(`handleCloudflareChallenge`, indeed_scraper.js:136-267)

The page handle is modelled as a stream of observations.  Every page query
the source awaits is an `Except`, so a failing page operation (unreadable
title, inaccessible body text, detached frame) can be injected at any point;
the embedding absorbs the error exactly where the source has a `.catch` or a
`try`/`catch`.  The poll loop runs on explicit fuel equal to the source's
`maxAttempts = 12`; alongside the source's boolean result the model returns
the number of polling rounds consumed. -/

/-- A rejected page operation, classified the way the source classifies
`error.message` (indeed_scraper.js:236): `transitionMsg` is whether the
message contains "detached" or "destroyed". -/
structure PageErr where
  transitionMsg : Bool
deriving DecidableEq

/-- Observations one iteration of the poll loop (indeed_scraper.js:186-255)
can make: current URL (`page.url()`, synchronous), title, the
`[data-jk], .job_seen_beacon, .jobsearch-SerpJobCard, #searchform` results
query, the CAPTCHA iframe query, and the re-checks made inside the
detached-frame recovery block (indeed_scraper.js:241-249). -/
structure RoundObs where
  url : String
  title : Except PageErr String
  hasResults : Except PageErr Bool
  hasCaptcha : Except PageErr Bool
  recoveryTitle : Except PageErr String
  recoveryHasResults : Except PageErr Bool

/-- A page handle: the observations made before the loop
(indeed_scraper.js:138-170) and the per-round observation stream. -/
structure PageView where
  initTitle : Except PageErr String
  initUrl : String
  bodyText : Except PageErr String
  initHasResults : Except PageErr Bool
  rounds : Nat → RoundObs

/-- The indicator phrase list of indeed_scraper.js:144-156. -/
def cloudflareIndicators : List String :=
  ["just a moment", "checking your browser", "please wait", "ddos protection",
   "cloudflare", "ray id", "attention required", "verify you are human",
   "security check", "browser check", "challenge"]

/-- Computes `cloudflareIndicators.some(i => s.toLowerCase().includes(i))`. -/
def containsIndicator (s : String) : Bool :=
  cloudflareIndicators.any (fun indicator => strContains (jsToLower s) indicator)

/-- Models `.catch(() => '')` on a string-producing page query. -/
def orEmpty (r : Except PageErr String) : String :=
  match r with
  | .ok s => s
  | .error _ => ""

/-- Models `.catch(() => null)` on an element query, with the result used as a
truth value (element found or not). -/
def orFalse (r : Except PageErr Bool) : Bool :=
  match r with
  | .ok b => b
  | .error _ => false

/-- The round ceiling (`maxAttempts`, indeed_scraper.js:183): 12 rounds. -/
def maxAttempts : Nat := 12

/-- The `while (attempts < maxAttempts)` loop of indeed_scraper.js:186-255,
with `fuel = maxAttempts - attempts`.  Returns the source's boolean result
paired with the number of polling rounds consumed.  A failing title read
falls into the loop's own `catch` (indeed_scraper.js:232-254): a
detached/destroyed message triggers the recovery re-check, anything else
just continues; in both continue paths `lastUrl` is not updated, matching
the source where the update sits at the end of the `try` block. -/
def pollLoop (p : PageView) : Nat → Nat → String → Bool × Nat
  | 0, attempts, _ => (false, attempts)
  | fuel + 1, attempts, lastUrl =>
    match (p.rounds attempts).title with
    | .error e =>
      if e.transitionMsg then
        match (p.rounds attempts).recoveryTitle with
        | .ok newTitle =>
          if orFalse (p.rounds attempts).recoveryHasResults || !containsIndicator newTitle then
            (true, attempts + 1)
          else
            pollLoop p fuel (attempts + 1) lastUrl
        | .error _ => pollLoop p fuel (attempts + 1) lastUrl
      else
        pollLoop p fuel (attempts + 1) lastUrl
    | .ok currentTitle =>
      if ((p.rounds attempts).url != lastUrl)
          && !strContains (p.rounds attempts).url "challenge" then
        (true, attempts + 1)
      else if orFalse (p.rounds attempts).hasResults then
        (true, attempts + 1)
      else if !containsIndicator currentTitle
          && (strContains currentTitle "Indeed" || strContains currentTitle "jobs") then
        (true, attempts + 1)
      else if orFalse (p.rounds attempts).hasCaptcha then
        pollLoop p fuel (attempts + 1) lastUrl
      else
        pollLoop p fuel (attempts + 1) (p.rounds attempts).url

/-- The body of the outer `try` of `handleCloudflareChallenge`
(indeed_scraper.js:137-262).  The initial title, body text and results
queries each carry their own `.catch` (lines 138, 163, 170), absorbed here
by `orEmpty`/`orFalse`; the detection branch enters the poll loop, and a
view with neither indicator phrases nor a results marker falls through to
the final `return true` (line 262). -/
def challengeBody (p : PageView) : Except PageErr (Bool × Nat) :=
  if !containsIndicator (orEmpty p.initTitle) && !containsIndicator (orEmpty p.bodyText) then
    if orFalse p.initHasResults then
      Except.ok (true, 0)
    else
      Except.ok (true, 0)
  else
    Except.ok (pollLoop p maxAttempts 0 p.initUrl)

/-- Embeds `handleCloudflareChallenge` with its outer `catch`
(indeed_scraper.js:263-266), which logs and returns `false`. -/
def handleCloudflareChallenge (p : PageView) : Bool × Nat :=
  match challengeBody p with
  | .ok r => r
  | .error _ => (false, 0)

/-- C8. For every page handle — including ones whose title, body-text,
element and recovery queries all fail — the body of
`handleCloudflareChallenge` returns a boolean outcome and never propagates
an exception to the caller (every page-access failure is absorbed by a
`.catch` or by the loop's own `catch`); and a transient detached-frame
error during a poll round whose recovery re-check still shows the challenge
is folded into the next round: the loop result equals that of the
remaining rounds, with one round consumed. -/
theorem handleCloudflareChallenge_never_throws (p : PageView) :
    challengeBody p = Except.ok (handleCloudflareChallenge p)
  ∧ (∀ fuel attempts lastUrl e,
      (p.rounds attempts).title = Except.error e →
      (∀ t, (p.rounds attempts).recoveryTitle = Except.ok t →
        orFalse (p.rounds attempts).recoveryHasResults = false ∧ containsIndicator t = true) →
      pollLoop p (fuel + 1) attempts lastUrl = pollLoop p fuel (attempts + 1) lastUrl) := by
  constructor
  · have h : ∃ r, challengeBody p = Except.ok r := by
      unfold challengeBody
      split
      · split
        · exact ⟨_, rfl⟩
        · exact ⟨_, rfl⟩
      · exact ⟨_, rfl⟩
    obtain ⟨r, hr⟩ := h
    rw [handleCloudflareChallenge, hr]
  · intro fuel attempts lastUrl e herr hrec
    rw [pollLoop, herr]
    dsimp only
    by_cases htr : e.transitionMsg = true
    · rw [if_pos htr]
      cases hrt : (p.rounds attempts).recoveryTitle with
      | ok t =>
        obtain ⟨h1, h2⟩ := hrec t hrt
        simp [h1, h2]
      | error _ => rfl
    · rw [if_neg htr]

/-- A page handle that raises a detached-frame error on every title read in
the poll loop, and whose recovery re-check still shows the challenge. -/
def detachedEveryRoundView : PageView :=
  { initTitle := Except.ok "Just a moment...",
    initUrl := "https://www.indeed.com/cf",
    bodyText := Except.ok "",
    initHasResults := Except.ok false,
    rounds := fun _ =>
      { url := "https://www.indeed.com/cf",
        title := Except.error ⟨true⟩,
        hasResults := Except.ok false,
        hasCaptcha := Except.ok false,
        recoveryTitle := Except.ok "Just a moment...",
        recoveryHasResults := Except.ok false } }

/-- Witness for C8 at a concrete page handle whose every in-loop title read
fails with a detached-frame error. -/
theorem handleCloudflareChallenge_never_throws_witness :
    challengeBody detachedEveryRoundView
        = Except.ok (handleCloudflareChallenge detachedEveryRoundView)
  ∧ pollLoop detachedEveryRoundView 1 0 "https://www.indeed.com/cf"
        = pollLoop detachedEveryRoundView 0 1 "https://www.indeed.com/cf" :=
  ⟨(handleCloudflareChallenge_never_throws detachedEveryRoundView).1,
   (handleCloudflareChallenge_never_throws detachedEveryRoundView).2 0 0
     "https://www.indeed.com/cf" ⟨true⟩ rfl
     (fun t ht => by
       injection ht with h
       subst h
       exact ⟨rfl, by decide⟩)⟩

/-- C3. A view whose initial title contains an indicator
phrase and which, in every round, keeps the same URL, keeps a readable
title containing an indicator phrase, and never gains a results marker, is
not reported challenge-free: the resolver enters the poll loop and returns
the failure outcome after exactly 12 polling rounds. -/
theorem challenge_timeout_after_12_rounds (p : PageView) (t0 : String)
    (hTitle : p.initTitle = Except.ok t0)
    (hInd : containsIndicator t0 = true)
    (hUrl : ∀ i, (p.rounds i).url = p.initUrl)
    (hRound : ∀ i, ∃ t, (p.rounds i).title = Except.ok t ∧ containsIndicator t = true)
    (hNoResults : ∀ i, (p.rounds i).hasResults = Except.ok false) :
    handleCloudflareChallenge p = (false, 12) := by
  have hloop : ∀ fuel attempts, pollLoop p fuel attempts p.initUrl = (false, attempts + fuel) := by
    intro fuel
    induction fuel with
    | zero => intro attempts; rfl
    | succ fuel ih =>
      intro attempts
      obtain ⟨t, ht, hit⟩ := hRound attempts
      rw [pollLoop, ht]
      dsimp only
      rw [hUrl attempts, hNoResults attempts]
      simp only [bne_self_eq_false, Bool.false_and, Bool.false_eq_true, if_false, hit,
        orFalse, Bool.not_true, ite_self]
      rw [ih (attempts + 1)]
      simp only [Prod.mk.injEq, true_and]
      omega
  have hbody : challengeBody p = Except.ok (false, 12) := by
    unfold challengeBody
    rw [hTitle]
    have hI : containsIndicator (orEmpty (Except.ok t0)) = true := hInd
    rw [if_neg (by simp [hI]), hloop maxAttempts 0]
    rfl
  unfold handleCloudflareChallenge
  rw [hbody]

/-- A static challenged view: "checking your browser" title, unchanging URL,
no results marker, every round. -/
def staticChallengedView : PageView :=
  { initTitle := Except.ok "Checking your browser before accessing indeed.com",
    initUrl := "https://www.indeed.com/cf",
    bodyText := Except.ok "",
    initHasResults := Except.ok false,
    rounds := fun _ =>
      { url := "https://www.indeed.com/cf",
        title := Except.ok "Checking your browser before accessing indeed.com",
        hasResults := Except.ok false,
        hasCaptcha := Except.ok false,
        recoveryTitle := Except.ok "",
        recoveryHasResults := Except.ok false } }

/-- Witness for C3: the static "checking your browser" view times out with
exactly 12 rounds consumed. -/
theorem challenge_timeout_after_12_rounds_witness :
    handleCloudflareChallenge staticChallengedView = (false, 12) :=
  challenge_timeout_after_12_rounds staticChallengedView
    "Checking your browser before accessing indeed.com" rfl (by decide)
    (fun _ => rfl) (fun _ => ⟨_, rfl, by decide⟩) (fun _ => rfl)

/-- A view already showing job results but with a stale challenge banner
still in the title: results marker present initially and in every round,
title "Just a moment..." throughout. -/
def staleBannerView : PageView :=
  { initTitle := Except.ok "Just a moment...",
    initUrl := "https://www.indeed.com/jobs?q=chef",
    bodyText := Except.ok "",
    initHasResults := Except.ok true,
    rounds := fun _ =>
      { url := "https://www.indeed.com/jobs?q=chef",
        title := Except.ok "Just a moment...",
        hasResults := Except.ok true,
        hasCaptcha := Except.ok false,
        recoveryTitle := Except.ok "",
        recoveryHasResults := Except.ok false } }

/-- C2 counterexample. On a view whose results marker is present from
the start but whose title contains the indicator phrase "just a moment",
`handleCloudflareChallenge` does not short-circuit: it enters the poll loop
and succeeds only after one polling round, so it does not return with zero
polling rounds consumed as the claim states. -/
theorem marker_with_banner_consumes_a_round :
    staleBannerView.initHasResults = Except.ok true
  ∧ (staleBannerView.rounds 0).hasResults = Except.ok true
  ∧ handleCloudflareChallenge staleBannerView = (true, 1)
  ∧ (handleCloudflareChallenge staleBannerView).2 ≠ 0 := by
  refine ⟨rfl, rfl, ?_, ?_⟩ <;> decide

/-- A results view with no challenge indicators anywhere: marker present,
benign title and body. -/
def cleanResultsView : PageView :=
  { initTitle := Except.ok "Chef Jobs, Employment | Indeed.com",
    initUrl := "https://www.indeed.com/jobs?q=chef",
    bodyText := Except.ok "10 jobs",
    initHasResults := Except.ok true,
    rounds := fun _ =>
      { url := "https://www.indeed.com/jobs?q=chef",
        title := Except.ok "Chef Jobs, Employment | Indeed.com",
        hasResults := Except.ok true,
        hasCaptcha := Except.ok false,
        recoveryTitle := Except.ok "",
        recoveryHasResults := Except.ok false } }

/-- C2 amended. On a view whose results marker is present: if neither
the title nor the body text contains an indicator phrase, the resolver
returns success immediately with zero polling rounds; if an indicator
phrase is present (and the first round's title is readable), the marker
does not short-circuit the detection step — the resolver enters the poll
loop and returns success only after the first polling round. -/
theorem marker_shortcircuit_amended (p : PageView)
    (hMarker : orFalse p.initHasResults = true)
    (hMarker0 : orFalse (p.rounds 0).hasResults = true)
    (hTitle0 : ∃ t, (p.rounds 0).title = Except.ok t) :
    (containsIndicator (orEmpty p.initTitle) = false
        ∧ containsIndicator (orEmpty p.bodyText) = false →
      handleCloudflareChallenge p = (true, 0))
  ∧ (containsIndicator (orEmpty p.initTitle) = true
        ∨ containsIndicator (orEmpty p.bodyText) = true →
      handleCloudflareChallenge p = (true, 1)) := by
  constructor
  · intro ⟨h1, h2⟩
    unfold handleCloudflareChallenge challengeBody
    rw [if_pos (by simp [h1, h2]), ite_self]
  · intro hind
    have hcond : ¬ ((!containsIndicator (orEmpty p.initTitle)
        && !containsIndicator (orEmpty p.bodyText)) = true) := by
      rcases hind with h | h <;> simp [h]
    unfold handleCloudflareChallenge challengeBody
    rw [if_neg hcond]
    obtain ⟨t, ht⟩ := hTitle0
    show (pollLoop p maxAttempts 0 p.initUrl) = (true, 1)
    rw [show maxAttempts = 11 + 1 from rfl, pollLoop, ht]
    dsimp only
    by_cases hu : (((p.rounds 0).url != p.initUrl)
        && !strContains (p.rounds 0).url "challenge") = true
    · rw [if_pos hu]
    · rw [if_neg hu, hMarker0, if_pos rfl]

/-- Witness for C2 (amended): the clean results view resolves with zero
rounds; the stale-banner view resolves after exactly one round. -/
theorem marker_shortcircuit_amended_witness :
    handleCloudflareChallenge cleanResultsView = (true, 0)
  ∧ handleCloudflareChallenge staleBannerView = (true, 1) :=
  ⟨(marker_shortcircuit_amended cleanResultsView rfl rfl ⟨_, rfl⟩).1 ⟨by decide, by decide⟩,
   (marker_shortcircuit_amended staleBannerView rfl rfl ⟨_, rfl⟩).2 (Or.inl (by decide))⟩

/-! ## Extraction engine (`extractIndeedJobData`, indeed_scraper.js:275-397)
and the per-card acceptance step of the request handler
(indeed_scraper.js:749-767). -/

/-- One job card as seen from inside `page.evaluate`:
`getText sel` is the trimmed `textContent` of the first descendant matching
`sel` (`''` when no match — the source's `getText` helper, line 279-282);
`getAttr sel attr` is the attribute value with the same `''` fallback
(line 284-287); `evalThrows` models the `page.evaluate` call rejecting,
which the source catches and converts to `null` (lines 393-396). -/
structure JobCard where
  getText : String → String
  getAttr : String → String → String
  evalThrows : Bool

/-- JS `a || b` on strings: `''` is falsy. -/
def jsOr (a b : String) : String := if a = "" then b else a

/-- Title fallback selectors (indeed_scraper.js:290-298). -/
def titleSelectors : List String :=
  ["h2 a span[title]", "[data-testid=\"job-title\"] a span", ".jobTitle a span",
   "h2 span[title]", ".jobTitle span", "a[data-jk] span[title]",
   ".jobTitle-color-purple span"]

/-- Company fallback selectors (indeed_scraper.js:301-308). -/
def companySelectors : List String :=
  ["[data-testid=\"company-name\"]", ".companyName", "span[data-testid=\"company-name\"]",
   ".company", "a[data-testid=\"company-name\"]", ".companyName a"]

/-- Location fallback selectors (indeed_scraper.js:311-317). -/
def locationSelectors : List String :=
  ["[data-testid=\"job-location\"]", ".companyLocation", "div[data-testid=\"job-location\"]",
   ".location", ".locationsContainer"]

/-- Salary fallback selectors (indeed_scraper.js:320-326). -/
def salarySelectors : List String :=
  [".salary-snippet", "[data-testid=\"attribute_snippet_testid\"]", ".estimated-salary",
   ".salaryText", ".salary"]

/-- Description fallback selectors (indeed_scraper.js:329-334). -/
def descriptionSelectors : List String :=
  [".job-snippet", "[data-testid=\"job-snippet\"]", ".summary",
   ".jobCardShelfContainer .summary"]

/-- The `for (const selector of ...) { x = getText(selector); if (x) break }`
pattern (indeed_scraper.js:339-362): first selector with non-empty text
wins; all empty leaves `''`. -/
def firstNonEmpty (card : JobCard) : List String → String
  | [] => ""
  | s :: rest => if card.getText s = "" then firstNonEmpty card rest else card.getText s

/-- The record built at indeed_scraper.js:375-389 (the `scrapedAt`
timestamp and the `elementHTML` debug excerpt are clock/DOM-dump fields and
are not modelled). -/
structure JobData where
  title : String
  company : String
  location : String
  salary : String
  description : String
  jobId : String
  jobLink : String
  postedDate : String
  jobType : String
  source : String
deriving DecidableEq

/-- Embeds `extractIndeedJobData` (indeed_scraper.js:275-397): evaluates the
fallback chains and builds the record; a rejected `page.evaluate` is caught
and yields `null` (`none`). -/
def extractIndeedJobData (card : JobCard) : Option JobData :=
  if card.evalThrows then none
  else
    let title := firstNonEmpty card titleSelectors
    let company := firstNonEmpty card companySelectors
    let location := firstNonEmpty card locationSelectors
    let salary := firstNonEmpty card salarySelectors
    let description := firstNonEmpty card descriptionSelectors
    let jobId := jsOr (card.getAttr "" "data-jk") (card.getAttr "[data-jk]" "data-jk")
    let jobLink := jsOr (card.getAttr "h2 a" "href")
      (jsOr (card.getAttr "[data-testid=\"job-title\"] a" "href")
        (jsOr (card.getAttr ".jobTitle a" "href") (card.getAttr "a[data-jk]" "href")))
    let postedDate := jsOr (card.getText ".date") (card.getText "[data-testid=\"myJobsStateDate\"]")
    let jobTypeText := jsOr (card.getText ".jobMetadata") (card.getText ".jobsearch-JobMetadataHeader")
    some
      { title := jsOr title "No title found"
      , company := jsOr company "No company found"
      , location := jsOr location "No location found"
      , salary := jsOr salary ""
      , description := jsOr description ""
      , jobId := jsOr jobId ""
      , jobLink := if jobLink = "" then "" else "https://www.indeed.com" ++ jobLink
      , postedDate := jsOr postedDate ""
      , jobType := jsOr jobTypeText ""
      , source := "Indeed Direct" }

/-- The per-card acceptance step of the request handler
(indeed_scraper.js:749-767): a `null` extraction or a sentinel
title/company drops the card; then the two company filters are applied.
`shouldExclude` and `salaryLike` stand for `shouldExcludeCompany(...)
.isExcluded` and `isSalaryCompanyName(...)` from `bing_search_api.js`,
which is not among the sources; the spec (§4.5, §6) treats them as
external pass/fail predicates on the company name. -/
def emitRecord (shouldExclude salaryLike : String → Bool) (card : JobCard) : Option JobData :=
  match extractIndeedJobData card with
  | none => none
  | some jobData =>
    if jobData.title ≠ "No title found" ∧ jobData.company ≠ "No company found" then
      if shouldExclude jobData.company then none
      else if salaryLike jobData.company then none
      else some jobData
    else none

/-- The extraction loop over the page's cards
(indeed_scraper.js:748-774): per-card failures and drops skip the card
and never abort the batch. -/
def processCards (shouldExclude salaryLike : String → Bool) (cards : List JobCard) : List JobData :=
  cards.filterMap (emitRecord shouldExclude salaryLike)

lemma firstNonEmpty_of_all_empty (card : JobCard) :
    ∀ sels : List String, (∀ s ∈ sels, card.getText s = "") → firstNonEmpty card sels = ""
  | [], _ => rfl
  | s :: rest, h => by
      rw [firstNonEmpty, if_pos (h s (List.mem_cons_self s rest))]
      exact firstNonEmpty_of_all_empty card rest (fun x hx => h x (List.mem_cons_of_mem s hx))

/-- C4. (i) A card on which no company fallback selector yields
non-empty text is discarded: nothing is emitted for it, and the batch
continues with the remaining cards rather than aborting.  (ii) A card whose
title and company fallback chains resolve (and whose evaluation does not
throw) but on which no salary selector matches yields a record — not
`null` — whose salary field is the empty string, carrying the resolved
title and company. -/
theorem extraction_company_salary_spec (shouldExclude salaryLike : String → Bool)
    (card : JobCard) (rest : List JobCard) :
    ((∀ s ∈ companySelectors, card.getText s = "") →
      emitRecord shouldExclude salaryLike card = none
      ∧ processCards shouldExclude salaryLike (card :: rest)
          = processCards shouldExclude salaryLike rest)
  ∧ (card.evalThrows = false →
     firstNonEmpty card titleSelectors ≠ "" →
     firstNonEmpty card companySelectors ≠ "" →
     (∀ s ∈ salarySelectors, card.getText s = "") →
      ∃ jd, extractIndeedJobData card = some jd
        ∧ jd.salary = ""
        ∧ jd.title = firstNonEmpty card titleSelectors
        ∧ jd.company = firstNonEmpty card companySelectors) := by
  constructor
  · intro hcomp
    have hnone : emitRecord shouldExclude salaryLike card = none := by
      unfold emitRecord
      cases hx : extractIndeedJobData card with
      | none => rfl
      | some jd =>
        have hjd : jd.company = "No company found" := by
          unfold extractIndeedJobData at hx
          by_cases ht : card.evalThrows = true
          · rw [if_pos ht] at hx; cases hx
          · rw [if_neg ht] at hx
            have := firstNonEmpty_of_all_empty card companySelectors hcomp
            injection hx with hx
            rw [← hx]
            simp [jsOr, this]
        dsimp only
        rw [if_neg (by simp [hjd])]
    refine ⟨hnone, ?_⟩
    unfold processCards
    rw [List.filterMap_cons, hnone]
  · intro hthrow htitle hcomp hsal
    have hs := firstNonEmpty_of_all_empty card salarySelectors hsal
    refine ⟨_, by unfold extractIndeedJobData; rw [if_neg (by simp [hthrow])], ?_, ?_, ?_⟩
    · simp [hs, jsOr]
    · simp [jsOr, htitle]
    · simp [jsOr, hcomp]

/-- A card with a resolvable title and company but no salary markup. -/
def cardNoSalary : JobCard :=
  { getText := fun s =>
      if s = "h2 a span[title]" then "Head Chef"
      else if s = "[data-testid=\"company-name\"]" then "Acme Restaurants"
      else ""
  , getAttr := fun _ _ => ""
  , evalThrows := false }

/-- A card on which no company selector matches anything. -/
def cardNoCompany : JobCard :=
  { getText := fun s => if s = "h2 a span[title]" then "Head Chef" else ""
  , getAttr := fun _ _ => ""
  , evalThrows := false }

/-- Witness for C4 at two concrete cards: the company-less card emits
nothing (and the batch continues), and the salary-less card yields a
record with an empty salary string. -/
theorem extraction_company_salary_spec_witness :
    (emitRecord (fun _ => false) (fun _ => false) cardNoCompany = none
      ∧ processCards (fun _ => false) (fun _ => false) [cardNoCompany, cardNoSalary]
          = processCards (fun _ => false) (fun _ => false) [cardNoSalary])
  ∧ ∃ jd, extractIndeedJobData cardNoSalary = some jd
      ∧ jd.salary = ""
      ∧ jd.title = firstNonEmpty cardNoSalary titleSelectors
      ∧ jd.company = firstNonEmpty cardNoSalary companySelectors :=
  ⟨(extraction_company_salary_spec (fun _ => false) (fun _ => false) cardNoCompany
      [cardNoSalary]).1 (by decide),
   (extraction_company_salary_spec (fun _ => false) (fun _ => false) cardNoSalary []).2
     rfl (by decide) (by decide) (by decide)⟩

/-! ## Pagination guard (request handler, non-first-page branch,
indeed_scraper.js:636-675) -/

/-- Models `parseInt` on a digit run. -/
def digitsVal (l : List Char) : Nat := l.foldl (fun acc c => acc * 10 + (c.toNat - 48)) 0

/-- Models `text.match(/(\d+)/)`: the leftmost maximal digit run, if any. -/
def firstNumberAux : List Char → Option Nat
  | [] => none
  | c :: rest =>
    if c.isDigit then some (digitsVal (c :: rest.takeWhile Char.isDigit))
    else firstNumberAux rest

/-- The declared-total read at indeed_scraper.js:638-647: the first number
in the count element's text, `0` when the text has no digits. -/
def firstNumber (s : String) : Nat := (firstNumberAux s.data).getD 0

/-- What the non-first-page branch can observe and do. -/
structure PaginationView where
  countText : Option String
  nextButtonFound : Bool
  navThrows : Bool

inductive PageAdvance
  | advanced
  | noMorePages
  | navError
deriving DecidableEq

/-- The non-first-page branch (indeed_scraper.js:636-675): read the declared
total (0 when the count element is absent), short-circuit when it cannot
support page `pageNumber + 1`, otherwise look for a next-page control;
click it if found (a navigation rejection is the error outcome), report
no-more-pages if not.  The second component records whether a click on a
next-page control was attempted. -/
def advancePage (v : PaginationView) (pageNumber : Nat) : PageAdvance × Bool :=
  let totalResults := match v.countText with
    | some t => firstNumber t
    | none => 0
  let expectedMinResults := (pageNumber + 1) * 10
  if totalResults < expectedMinResults then (.noMorePages, false)
  else if v.nextButtonFound then
    if v.navThrows then (.navError, true) else (.advanced, true)
  else (.noMorePages, false)

/-- C5. On a non-first-page task whose declared results total is below
`(pageIndex + 1) * 10`, the pagination step returns the no-more-pages
outcome without attempting to click any next-page control. -/
theorem pagination_guard (v : PaginationView) (pageNumber : Nat) (t : String)
    (hcount : v.countText = some t)
    (hlt : firstNumber t < (pageNumber + 1) * 10) :
    advancePage v pageNumber = (.noMorePages, false) := by
  unfold advancePage
  rw [hcount]
  exact if_pos hlt

/-- Witness for C5: a declared total of 15 with `pageIndex = 2`
short-circuits without a click, whatever next-page control is present. -/
theorem pagination_guard_witness :
    advancePage { countText := some "15 jobs", nextButtonFound := true, navThrows := false } 2
      = (.noMorePages, false) :=
  pagination_guard _ 2 "15 jobs" rfl (by decide)

/-! ## Challenge retry orchestration
(request handler, indeed_scraper.js:678-701 and 781-784) -/

/-- Source constant `maxRequestRetries` (indeed_scraper.js:481). -/
def maxRequestRetries : Nat := 2

/-- What one pass through the handler's `try` block does at the challenge
step, before any enclosing catch: a passed challenge proceeds to
extraction; a failed challenge with `retryCount < 2` closes the page and
throws the retry error (lines 684-695); otherwise the handler increments
`failedUrls` and returns (lines 697-699).  `completed n` is a normal
return contributing `n` to `failedUrls`; `raised` is an escaping throw. -/
inductive TryResult
  | completed (failedInc : Nat)
  | raised
deriving DecidableEq

def handlerTryBlock (challengeOk : Bool) (retryCount : Nat) : TryResult :=
  if challengeOk then .completed 0
  else if retryCount < 2 then .raised
  else .completed 1

/-- The request handler as written: its own outer `try` opens at line 541
and its `catch` at lines 781-784 logs, increments `failedUrls` and returns
normally — so the retry throw of line 695 never escapes the handler. -/
def requestHandlerActual (challengeOk : Bool) (retryCount : Nat) : TryResult :=
  match handlerTryBlock challengeOk retryCount with
  | .raised => .completed 1
  | r => r

/-- The handler the source's own inline comments describe ("Throw error to
trigger retry with new session", line 694): the retry throw escapes to the
crawler. -/
def requestHandlerIntended (challengeOk : Bool) (retryCount : Nat) : TryResult :=
  handlerTryBlock challengeOk retryCount

/-- Outcome of driving one task to completion. -/
structure TaskRun where
  done : Bool
  attempts : Nat
  sessionReplacements : Nat
  failedCount : Nat
deriving DecidableEq

/-- Modelled from the spec: the crawler's per-request retry driver (the
`crawlee` scheduling machinery is an external dependency, not under the
sources).  Spec §4.6: a task failing at the challenge step "is retried by
discarding the current automated view and reacquiring a session, up to a
small fixed retry budget (default 2 retries, i.e. 3 attempts total)".  An
escaping handler exception consumes a retry slot and replaces the session;
a normal handler return ends the task, which is `Done` when it contributed
nothing to the failure counter. -/
def runTaskAux (handler : Bool → Nat → TryResult) (outcomes : Nat → Bool) :
    Nat → Nat → Nat → TaskRun
  | 0, retryCount, repl =>
    { done := false, attempts := retryCount, sessionReplacements := repl, failedCount := 1 }
  | fuel + 1, retryCount, repl =>
    match handler (outcomes retryCount) retryCount with
    | .completed failedInc =>
      { done := failedInc == 0, attempts := retryCount + 1,
        sessionReplacements := repl, failedCount := failedInc }
    | .raised => runTaskAux handler outcomes fuel (retryCount + 1) (repl + 1)

/-- Modelled from the spec: run one task with the retry budget
`maxRequestRetries` (3 attempts total), starting with a fresh session. -/
def runTask (handler : Bool → Nat → TryResult) (outcomes : Nat → Bool) : TaskRun :=
  runTaskAux handler outcomes (maxRequestRetries + 1) 0 0

/-- C1 code-bug evidence. With a challenge that times out on the first two
attempts and would succeed on the third: the handler as written swallows
its own retry throw in the outer catch at indeed_scraper.js:781-784, so the
task makes exactly one attempt, replaces no session, and is counted
failed — whereas the handler described by the source's own retry comments
and config (lines 481, 684-695) would finish `Done` after 3 attempts with
exactly 2 session replacements. -/
theorem challenge_retry_swallowed :
    runTask requestHandlerActual (fun n => decide (2 ≤ n))
      = { done := false, attempts := 1, sessionReplacements := 0, failedCount := 1 }
  ∧ runTask requestHandlerIntended (fun n => decide (2 ≤ n))
      = { done := true, attempts := 3, sessionReplacements := 2, failedCount := 0 } := by
  constructor <;> rfl

/-! ## Session pool (`sessionPoolOptions`, indeed_scraper.js:471-478)

The source configures the crawler's session pool with `maxPoolSize: 10`,
`maxUsageCount: 5` and `maxErrorScore: 3`; the pool mechanics themselves
live in the external `crawlee` dependency and are modelled from the spec
(§4.2). -/

/-- Source constant `maxPoolSize` (indeed_scraper.js:473). -/
def maxPoolSize : Nat := 10

/-- Source constant `maxUsageCount` (indeed_scraper.js:475). -/
def maxUsageCount : Nat := 5

/-- Source constant `maxErrorScore` (indeed_scraper.js:476). -/
def maxErrorScore : Nat := 3

/-- One pooled session: identity, usage/error counters, and whether it is
currently assigned to a worker. -/
structure PoolSession where
  sid : Nat
  usageCount : Nat
  errorScore : Nat
  busy : Bool
deriving DecidableEq

/-- The pool: the active set plus the next fresh identity. -/
structure SessionPool where
  active : List PoolSession
  nextId : Nat
deriving DecidableEq

/-- Mark the handed-out session as assigned. -/
def markBusy (sid0 : Nat) (t : PoolSession) : PoolSession :=
  if t.sid == sid0 then { t with busy := true } else t

/-- Modelled from the spec: `acquire()` (§4.2) — the session-pool mechanics
are in the external `crawlee` dependency, only the caps above are in the
sources.  Returns an idle active session if one exists, else creates a
fresh one when below capacity, else fails (`PoolExhausted`, `none`). -/
def acquire (p : SessionPool) : SessionPool × Option Nat :=
  match p.active.find? (fun s => !s.busy) with
  | some s =>
    ({ p with active := p.active.map (markBusy s.sid) }, some s.sid)
  | none =>
    if p.active.length < maxPoolSize then
      ({ active := p.active ++ [{ sid := p.nextId, usageCount := 0, errorScore := 0, busy := true }],
         nextId := p.nextId + 1 },
       some p.nextId)
    else (p, none)

/-- The counter update `release` applies to the released session:
increment `usageCount` always and `errorScore` on an error outcome. -/
def bumpSession (isError : Bool) (sid : Nat) (s : PoolSession) : PoolSession :=
  if s.sid == sid then
    { s with usageCount := s.usageCount + 1,
             errorScore := s.errorScore + (if isError then 1 else 0),
             busy := false }
  else s

/-- Modelled from the spec: `release(session, outcome)` (§4.2) — apply the
counter update, then retire the session (drop it from the active set) when
`usageCount ≥ maxUsageCount` or `errorScore ≥ maxErrorScore`. -/
def release (p : SessionPool) (sid : Nat) (isError : Bool) : SessionPool :=
  { p with active := ((p.active.map (bumpSession isError sid)).filter (fun s =>
      decide (s.usageCount < maxUsageCount) && decide (s.errorScore < maxErrorScore))) }

/-- A pool operation issued by the orchestrator. -/
inductive PoolOp
  | acquireOp
  | releaseOp (sid : Nat) (isError : Bool)

def stepPool (p : SessionPool) : PoolOp → SessionPool
  | .acquireOp => (acquire p).1
  | .releaseOp sid isError => release p sid isError

def emptyPool : SessionPool := { active := [], nextId := 0 }

/-- A pool reachable by a sequence of acquire/release operations. -/
def runPool (ops : List PoolOp) : SessionPool := ops.foldl stepPool emptyPool

/-- The pool invariant: bounded active set, no at-cap session still active,
all identities below the fresh-identity counter, identities pairwise
distinct. -/
def PoolInv (p : SessionPool) : Prop :=
  p.active.length ≤ maxPoolSize
  ∧ (∀ s ∈ p.active, s.usageCount < maxUsageCount ∧ s.errorScore < maxErrorScore)
  ∧ (∀ s ∈ p.active, s.sid < p.nextId)
  ∧ p.active.Pairwise (fun a b => a.sid ≠ b.sid)

lemma markBusy_fields (sid0 : Nat) (t : PoolSession) :
    (markBusy sid0 t).sid = t.sid
    ∧ (markBusy sid0 t).usageCount = t.usageCount
    ∧ (markBusy sid0 t).errorScore = t.errorScore := by
  unfold markBusy
  split <;> exact ⟨rfl, rfl, rfl⟩

lemma bumpSession_sid (isError : Bool) (sid : Nat) (s : PoolSession) :
    (bumpSession isError sid s).sid = s.sid := by
  unfold bumpSession
  split <;> rfl

lemma bumpSession_mono (isError : Bool) (sid : Nat) (s : PoolSession) :
    s.usageCount ≤ (bumpSession isError sid s).usageCount
    ∧ s.errorScore ≤ (bumpSession isError sid s).errorScore := by
  unfold bumpSession
  split
  · exact ⟨Nat.le_succ _, Nat.le_add_right _ _⟩
  · exact ⟨le_refl _, le_refl _⟩

lemma poolInv_step (p : SessionPool) (op : PoolOp) (h : PoolInv p) : PoolInv (stepPool p op) := by
  obtain ⟨hlen, hcaps, hsid, hpair⟩ := h
  cases op with
  | acquireOp =>
    show PoolInv (acquire p).1
    unfold acquire
    cases hf : p.active.find? (fun s => !s.busy) with
    | some s =>
      dsimp only
      refine ⟨by simpa using hlen, ?_, ?_, ?_⟩
      · intro s' hs'
        obtain ⟨t, ht, rfl⟩ := List.mem_map.mp hs'
        rw [(markBusy_fields s.sid t).2.1, (markBusy_fields s.sid t).2.2]
        exact hcaps t ht
      · intro s' hs'
        obtain ⟨t, ht, rfl⟩ := List.mem_map.mp hs'
        rw [(markBusy_fields s.sid t).1]
        exact hsid t ht
      · rw [List.pairwise_map]
        exact hpair.imp (fun {a b} hne => by
          rw [(markBusy_fields s.sid a).1, (markBusy_fields s.sid b).1]
          exact hne)
    | none =>
      dsimp only
      split
      · next hlt =>
        refine ⟨?_, ?_, ?_, ?_⟩
        · rw [List.length_append]
          simpa using hlt
        · intro s' hs'
          rcases List.mem_append.mp hs' with hm | hm
          · exact hcaps s' hm
          · rcases List.mem_cons.mp hm with rfl | hm'
            · exact ⟨by show (0 : Nat) < maxUsageCount; decide,
                by show (0 : Nat) < maxErrorScore; decide⟩
            · cases hm'
        · intro s' hs'
          rcases List.mem_append.mp hs' with hm | hm
          · exact Nat.lt_succ_of_lt (hsid s' hm)
          · rcases List.mem_cons.mp hm with rfl | hm'
            · exact Nat.lt_succ_self _
            · cases hm'
        · rw [List.pairwise_append]
          refine ⟨hpair, by simp, ?_⟩
          intro a ha b hb
          rcases List.mem_cons.mp hb with rfl | hb'
          · exact Nat.ne_of_lt (hsid a ha)
          · cases hb'
      · exact ⟨hlen, hcaps, hsid, hpair⟩
  | releaseOp sid isError =>
    show PoolInv (release p sid isError)
    unfold release
    refine ⟨?_, ?_, ?_, ?_⟩
    · calc ((p.active.map (bumpSession isError sid)).filter _).length
          ≤ (p.active.map (bumpSession isError sid)).length := List.length_filter_le _ _
        _ = p.active.length := List.length_map _ _
        _ ≤ maxPoolSize := hlen
    · intro s' hs'
      have hp := (List.mem_filter.mp hs').2
      simpa using hp
    · intro s' hs'
      obtain ⟨t, ht, rfl⟩ := List.mem_map.mp (List.mem_of_mem_filter hs')
      rw [bumpSession_sid]
      exact hsid t ht
    · refine List.Pairwise.sublist (List.filter_sublist _) ?_
      rw [List.pairwise_map]
      exact hpair.imp (fun {a b} hne => by
        rw [bumpSession_sid, bumpSession_sid]
        exact hne)

lemma poolInv_runPool (ops : List PoolOp) : PoolInv (runPool ops) := by
  have hgen : ∀ (l : List PoolOp) (p : SessionPool), PoolInv p → PoolInv (l.foldl stepPool p) := by
    intro l
    induction l with
    | nil => exact fun p hp => hp
    | cons op l ih => exact fun p hp => ih _ (poolInv_step p op hp)
  refine hgen ops emptyPool ⟨by decide, ?_, ?_, ?_⟩
  · intro s hs; cases hs
  · intro s hs; cases hs
  · exact List.Pairwise.nil

lemma sid_unique {p : SessionPool} (h : PoolInv p) {a b : PoolSession}
    (ha : a ∈ p.active) (hb : b ∈ p.active) (hs : a.sid = b.sid) : a = b := by
  by_contra hne
  exact h.2.2.2.forall (fun x y hxy => (hxy ∘ Eq.symm)) ha hb hne hs

lemma step_mono {p : SessionPool} (h : PoolInv p) (op : PoolOp) (s s' : PoolSession)
    (hs : s ∈ p.active) (hs' : s' ∈ (stepPool p op).active) (hid : s'.sid = s.sid) :
    s.usageCount ≤ s'.usageCount ∧ s.errorScore ≤ s'.errorScore := by
  cases op with
  | acquireOp =>
    rw [show stepPool p .acquireOp = (acquire p).1 from rfl] at hs'
    unfold acquire at hs'
    cases hf : p.active.find? (fun s => !s.busy) with
    | some t =>
      rw [hf] at hs'
      dsimp only at hs'
      obtain ⟨u, hu, rfl⟩ := List.mem_map.mp hs'
      have hsidu : u.sid = s.sid := by
        rw [← (markBusy_fields t.sid u).1]
        exact hid
      have hus : u = s := sid_unique h hu hs hsidu
      subst hus
      rw [(markBusy_fields t.sid u).2.1, (markBusy_fields t.sid u).2.2]
      exact ⟨le_refl _, le_refl _⟩
    | none =>
      rw [hf] at hs'
      dsimp only at hs'
      split at hs'
      · rcases List.mem_append.mp hs' with hm | hm
        · rw [sid_unique h hm hs hid]
          exact ⟨le_refl _, le_refl _⟩
        · rcases List.mem_cons.mp hm with rfl | hm'
          · exact absurd (hid ▸ h.2.2.1 s hs) (by simp)
          · cases hm'
      · rw [sid_unique h hs' hs hid]
        exact ⟨le_refl _, le_refl _⟩
  | releaseOp sid isError =>
    rw [show stepPool p (.releaseOp sid isError) = release p sid isError from rfl] at hs'
    unfold release at hs'
    obtain ⟨u, hu, rfl⟩ := List.mem_map.mp (List.mem_of_mem_filter hs')
    have hsidu : u.sid = s.sid := by
      rw [← bumpSession_sid isError sid u]
      exact hid
    have hus : u = s := sid_unique h hu hs hsidu
    subst hus
    exact bumpSession_mono isError sid u

/-- C7. In every pool reachable by acquire/release operations from the
empty pool: the active set never exceeds `maxPoolSize = 10` sessions; no
active session has `usageCount ≥ maxUsageCount = 5` or
`errorScore ≥ maxErrorScore = 3` — the release that brings a counter to its
cap removes the session from the active set, and since `acquire` only
hands out active-set members, a retired session is never reused; and across
any further operation the counters of a surviving session (same identity)
never decrease. -/
theorem sessionPool_caps_enforced (ops : List PoolOp) :
    (runPool ops).active.length ≤ maxPoolSize
  ∧ (∀ s ∈ (runPool ops).active,
      s.usageCount < maxUsageCount ∧ s.errorScore < maxErrorScore)
  ∧ (∀ (op : PoolOp) (s s' : PoolSession), s ∈ (runPool ops).active →
      s' ∈ (stepPool (runPool ops) op).active → s'.sid = s.sid →
      s.usageCount ≤ s'.usageCount ∧ s.errorScore ≤ s'.errorScore) := by
  have h := poolInv_runPool ops
  exact ⟨h.1, h.2.1, fun op s s' hs hs' hid => step_mono h op s s' hs hs' hid⟩

/-- Witness for C7: after one acquire the pool holds the fresh session
`⟨0, 0, 0, busy⟩`; releasing it with a success outcome keeps it with
usage 1, and the theorem's monotonicity clause applies to that concrete
step; the capacity bound holds of the concrete pool. -/
theorem sessionPool_caps_enforced_witness :
    (runPool [PoolOp.acquireOp]).active.length ≤ maxPoolSize
  ∧ (⟨0, 0, 0, true⟩ : PoolSession).usageCount ≤ (⟨0, 1, 0, false⟩ : PoolSession).usageCount
  ∧ (⟨0, 0, 0, true⟩ : PoolSession).errorScore ≤ (⟨0, 1, 0, false⟩ : PoolSession).errorScore :=
  ⟨(sessionPool_caps_enforced [PoolOp.acquireOp]).1,
   ((sessionPool_caps_enforced [PoolOp.acquireOp]).2.2 (PoolOp.releaseOp 0 false)
     ⟨0, 0, 0, true⟩ ⟨0, 1, 0, false⟩ (by decide) (by decide) rfl).1,
   ((sessionPool_caps_enforced [PoolOp.acquireOp]).2.2 (PoolOp.releaseOp 0 false)
     ⟨0, 0, 0, true⟩ ⟨0, 1, 0, false⟩ (by decide) (by decide) rfl).2⟩

/-! ## Duplicate suppression in the aggregation-API path
(`scrapeJobsWithIndeedScraper`, indeed_scraper_api.js:364-401) -/

/-- An accumulated job as the dedup pass sees it: the `company` and `title`
fields feed the key (`none` models a null/undefined field, `""` is equally
falsy under `||`); `searchCity` stands for the rest of the record, which
differs between overlapping city searches. -/
structure NormalizedJob where
  company : Option String
  title : Option String
  searchCity : String
deriving DecidableEq

/-- JS `o || d` where `o` is a possibly-missing string field: null,
undefined and `''` are falsy. -/
def jsFieldOr (o : Option String) (d : String) : String :=
  match o with
  | some s => if s = "" then d else s
  | none => d

/-- The dedup key of indeed_scraper_api.js:371-373:
`(job.company || 'unknown').toLowerCase().trim()` joined by `'|'` with the
same of the title. -/
def jobKey (j : NormalizedJob) : String :=
  jsTrim (jsToLower (jsFieldOr j.company "unknown")) ++ "|"
    ++ jsTrim (jsToLower (jsFieldOr j.title "unknown"))

/-- One iteration of the `for (const job of allJobs)` loop
(indeed_scraper_api.js:369-385): the accumulator is `(uniqueJobs, seenJobs)`. -/
def dedupeStep (acc : List NormalizedJob × List String) (job : NormalizedJob) :
    List NormalizedJob × List String :=
  if acc.2.contains (jobKey job) then acc
  else (acc.1 ++ [job], acc.2 ++ [jobKey job])

/-- The dedup pass of `scrapeJobsWithIndeedScraper`: the `uniqueJobs` list
returned at indeed_scraper_api.js:401. -/
def dedupeJobs (jobs : List NormalizedJob) : List NormalizedJob :=
  (jobs.foldl dedupeStep ([], [])).1

/-- The spec-side description of the claimed behaviour, in its own words:
keep each job and drop every later job whose key equals its key. -/
def keepFirstByKey : List NormalizedJob → List NormalizedJob
  | [] => []
  | j :: rest => j :: keepFirstByKey (rest.filter fun j2 => jobKey j2 != jobKey j)
  termination_by l => l.length
  decreasing_by
    simp only [List.length_cons]
    exact Nat.lt_succ_of_le (List.length_filter_le _ _)

lemma contains_append_single (seen : List String) (k kx : String) :
    (seen ++ [k]).contains kx = (seen.contains kx || kx == k) := by
  by_cases h : kx = k <;> by_cases h2 : kx ∈ seen <;> simp [List.contains, h, h2]

lemma dedupeJobs_go (rest : List NormalizedJob) : ∀ (out : List NormalizedJob) (seen : List String),
    (rest.foldl dedupeStep (out, seen)).1
      = out ++ keepFirstByKey (rest.filter (fun j => !seen.contains (jobKey j))) := by
  induction rest with
  | nil => intro out seen; simp [keepFirstByKey]
  | cons j rest ih =>
    intro out seen
    rw [List.foldl_cons]
    by_cases h : seen.contains (jobKey j) = true
    · rw [show dedupeStep (out, seen) j = (out, seen) by unfold dedupeStep; exact if_pos h]
      rw [ih out seen, List.filter_cons]
      rw [show (!seen.contains (jobKey j)) = false by rw [h]; rfl]
      simp
    · have hfalse : seen.contains (jobKey j) = false := by
        cases hc : seen.contains (jobKey j)
        · rfl
        · exact absurd hc h
      rw [show dedupeStep (out, seen) j = (out ++ [j], seen ++ [jobKey j]) by
        unfold dedupeStep; exact if_neg h]
      rw [ih (out ++ [j]) (seen ++ [jobKey j]), List.filter_cons]
      rw [show (!seen.contains (jobKey j)) = true by rw [hfalse]; rfl]
      rw [if_pos rfl, keepFirstByKey, List.append_assoc, List.singleton_append]
      have hfilters : rest.filter (fun x => !(seen ++ [jobKey j]).contains (jobKey x))
          = (rest.filter (fun x => !seen.contains (jobKey x))).filter
              (fun x => jobKey x != jobKey j) := by
        rw [List.filter_filter]
        refine List.filter_congr (fun x _ => ?_)
        rw [contains_append_single]
        cases hc : seen.contains (jobKey x) <;> cases he : (jobKey x == jobKey j)
        · simp [hc, he, ne_of_beq_false he]
        · simp [hc, he, eq_of_beq he]
        · simp [hc, he]
        · simp [hc, he]
      rw [hfilters]

lemma mem_keepFirstByKey : ∀ (l : List NormalizedJob) (x : NormalizedJob),
    x ∈ keepFirstByKey l → x ∈ l := by
  intro l
  induction l using keepFirstByKey.induct with
  | case1 =>
    intro x hx
    simp [keepFirstByKey] at hx
  | case2 j rest ih =>
    intro x hx
    rw [keepFirstByKey] at hx
    rcases List.mem_cons.mp hx with h | h
    · exact h ▸ List.mem_cons_self _ _
    · exact List.mem_cons_of_mem _ (List.mem_of_mem_filter (ih _ h))

lemma nodup_keys_keepFirstByKey : ∀ l : List NormalizedJob,
    ((keepFirstByKey l).map jobKey).Nodup := by
  intro l
  induction l using keepFirstByKey.induct with
  | case1 => simp [keepFirstByKey]
  | case2 j rest ih =>
    rw [keepFirstByKey, List.map_cons, List.nodup_cons]
    refine ⟨?_, ih⟩
    intro hmem
    obtain ⟨x, hx, hkey⟩ := List.mem_map.mp hmem
    have hx' := List.mem_filter.mp (mem_keepFirstByKey _ _ hx)
    rw [hkey] at hx'
    simp at hx'

/-- C9. The list returned by the aggregation-API dedup pass is exactly
the first occurrence, in accumulation order, of each key
`lowercase(trim(company)) ++ "|" ++ lowercase(trim(title))` (with
`"unknown"` substituted for a missing company or title): later jobs with an
already-seen key are dropped, and the returned list's keys are pairwise
distinct. -/
theorem dedupeJobs_first_occurrence (jobs : List NormalizedJob) :
    dedupeJobs jobs = keepFirstByKey jobs
  ∧ ((dedupeJobs jobs).map jobKey).Nodup := by
  have heq : dedupeJobs jobs = keepFirstByKey jobs := by
    unfold dedupeJobs
    rw [dedupeJobs_go jobs [] []]
    rw [show jobs.filter (fun j => !List.contains [] (jobKey j)) = jobs by
      refine List.filter_eq_self.mpr (fun x _ => ?_)
      rfl]
    rfl
  exact ⟨heq, heq ▸ nodup_keys_keepFirstByKey jobs⟩

/-! ## Email harvesting (`extractEmailsFromText`,
indeed_scraper_api.js:255-272) -/

/-- The non-contact filter of indeed_scraper_api.js:262-269: keep an email
only when its lowercase form contains none of the five blocked markers. -/
def isContactEmail (email : String) : Bool :=
  !strContains (jsToLower email) "noreply"
  && !strContains (jsToLower email) "no-reply"
  && !strContains (jsToLower email) "donotreply"
  && !strContains (jsToLower email) "support"
  && !strContains (jsToLower email) "help"

/-- One step of the `Set`-spread de-duplication (`[...new Set(...)]`,
indeed_scraper_api.js:271): a JS `Set` keeps first occurrences in insertion
order. -/
def dedupeStringsStep (acc : List String) (e : String) : List String :=
  if acc.contains e then acc else acc ++ [e]

def dedupeStrings (l : List String) : List String := l.foldl dedupeStringsStep []

/-- Embeds `extractEmailsFromText` (indeed_scraper_api.js:255-272), parameterized
by the host regex engine: `emailMatcher s` stands for
`s.match(emailRegex) || []`, the list of regex matches, which the
embedding keeps abstract (it is the JS runtime's search, not code of this
repository); the falsy-input guard (`if (!text) return []`), the
non-contact filter and the `Set` de-duplication are the source's.  `none`
models a null/undefined argument and `some ""` the empty string, both
falsy. -/
def extractEmailsFromText (emailMatcher : String → List String) (text : Option String) :
    List String :=
  match text with
  | none => []
  | some s =>
    if s = "" then []
    else dedupeStrings ((emailMatcher s).filter isContactEmail)

lemma contains_false_not_mem {l : List String} {a : String} (h : l.contains a = false) :
    a ∉ l := by
  intro hm
  simp [List.contains] at h
  exact h hm

lemma dedupeStrings_go_nodup : ∀ (l acc : List String), acc.Nodup →
    (l.foldl dedupeStringsStep acc).Nodup := by
  intro l
  induction l with
  | nil => exact fun acc h => h
  | cons e l ih =>
    intro acc h
    rw [List.foldl_cons]
    unfold dedupeStringsStep
    by_cases hc : acc.contains e = true
    · rw [if_pos hc]
      exact ih acc h
    · have hfalse : acc.contains e = false := by
        cases hcc : acc.contains e
        · rfl
        · exact absurd hcc hc
      rw [if_neg hc]
      refine ih _ (List.nodup_append.mpr ⟨h, List.nodup_singleton e, ?_⟩)
      intro x hx hx'
      rcases List.mem_singleton.mp hx' with rfl
      exact contains_false_not_mem hfalse hx

lemma dedupeStrings_go_mem : ∀ (l acc : List String) (e : String),
    e ∈ l.foldl dedupeStringsStep acc → e ∈ acc ∨ e ∈ l := by
  intro l
  induction l with
  | nil => exact fun acc e h => Or.inl h
  | cons x l ih =>
    intro acc e h
    rw [List.foldl_cons] at h
    unfold dedupeStringsStep at h
    split at h
    · rcases ih acc e h with hm | hm
      · exact Or.inl hm
      · exact Or.inr (List.mem_cons_of_mem _ hm)
    · rcases ih _ e h with hm | hm
      · rcases List.mem_append.mp hm with hm' | hm'
        · exact Or.inl hm'
        · rcases List.mem_singleton.mp hm' with rfl
          exact Or.inr (List.mem_cons_self _ _)
      · exact Or.inr (List.mem_cons_of_mem _ hm)

/-- C10. Whatever list of matches the host regex search produces:
a null/undefined or empty input yields the empty list; the returned list
has no duplicate entries; and no returned element's lowercase form
contains any of "noreply", "no-reply", "donotreply", "support", "help". -/
theorem extractEmailsFromText_spec (emailMatcher : String → List String)
    (text : Option String) :
    extractEmailsFromText emailMatcher none = []
  ∧ extractEmailsFromText emailMatcher (some "") = []
  ∧ (extractEmailsFromText emailMatcher text).Nodup
  ∧ (∀ e ∈ extractEmailsFromText emailMatcher text,
      strContains (jsToLower e) "noreply" = false
      ∧ strContains (jsToLower e) "no-reply" = false
      ∧ strContains (jsToLower e) "donotreply" = false
      ∧ strContains (jsToLower e) "support" = false
      ∧ strContains (jsToLower e) "help" = false) := by
  refine ⟨rfl, rfl, ?_, ?_⟩
  · cases text with
    | none => exact List.nodup_nil
    | some s =>
      unfold extractEmailsFromText
      dsimp only
      split
      · exact List.nodup_nil
      · exact dedupeStrings_go_nodup _ [] List.nodup_nil
  · intro e he
    cases text with
    | none => cases he
    | some s =>
      unfold extractEmailsFromText at he
      dsimp only at he
      split at he
      · cases he
      · rcases dedupeStrings_go_mem _ [] e he with hm | hm
        · cases hm
        · have hp := (List.mem_filter.mp hm).2
          unfold isContactEmail at hp
          simp only [Bool.and_eq_true, Bool.not_eq_true'] at hp
          exact ⟨hp.1.1.1.1, hp.1.1.1.2, hp.1.1.2, hp.1.2, hp.2⟩

/-- Witness for C10 at a concrete matcher producing a duplicate and a
blocked address: the contact address survives with the stated
guarantees. -/
theorem extractEmailsFromText_spec_witness :
    "jobs@acme.com" ∈ extractEmailsFromText
        (fun _ => ["jobs@acme.com", "jobs@acme.com", "noreply@acme.com"]) (some "desc")
  ∧ (strContains (jsToLower "jobs@acme.com") "noreply" = false
      ∧ strContains (jsToLower "jobs@acme.com") "no-reply" = false
      ∧ strContains (jsToLower "jobs@acme.com") "donotreply" = false
      ∧ strContains (jsToLower "jobs@acme.com") "support" = false
      ∧ strContains (jsToLower "jobs@acme.com") "help" = false) :=
  ⟨by decide,
   (extractEmailsFromText_spec
      (fun _ => ["jobs@acme.com", "jobs@acme.com", "noreply@acme.com"]) (some "desc")).2.2.2
     "jobs@acme.com" (by decide)⟩

end IndeedScraper
